import Mathlib

/-!
Verification development for the ProtoNN trainer
(src/tf/edgeml/trainer/protoNNTrainer.py).

The Python module is shallowly embedded here:
* numpy arrays become a structure carrying the rows along axis 0 together
  with the trailing dimensions of the shape;
* numpy.array_split is reproduced exactly (balanced sections, numpy raises
  a ValueError when the section count is not positive);
* the TensorFlow session and the graph nodes (train step, loss, accuracy)
  are an opaque state machine supplied by the caller, matching the spec
  view of the execution engine as an opaque tensor/autodiff collaborator;
* the training loop is a pure function producing the list of observable
  events (variable initialization, optimizer steps, progress prints and
  validation-summary prints) together with the outcome (final engine
  state, or the Python exception that aborted the call);
* Python AssertionError / ValueError / ZeroDivisionError become an error
  type carrying the exact message string from the source;
* floats are modelled as rationals.
-/

/-- Python exceptions observable from the trainer, with their messages. -/
inductive PyErr where
  | assertionError (msg : String)
  | valueError (msg : String)
  | zeroDivisionError (msg : String)
deriving DecidableEq

instance {ε β : Type} [DecidableEq ε] [DecidableEq β] : DecidableEq (Except ε β) := by
  intro a b
  cases a <;> cases b
  case error.error e1 e2 =>
    exact if h : e1 = e2 then .isTrue (by rw [h]) else .isFalse (by simp [h])
  case error.ok e1 b2 => exact .isFalse (by simp)
  case ok.error b1 e2 => exact .isFalse (by simp)
  case ok.ok b1 b2 =>
    exact if h : b1 = b2 then .isTrue (by rw [h]) else .isFalse (by simp [h])

/-- `int(np.ceil(n / b))` for nonnegative integers, `b > 0`: the ceiling
of the division. -/
def ceilDiv (n b : ℕ) : ℕ := (n + b - 1) / b

/-- Section sizes used by `np.array_split(ary, n)`: `l % n` sections of
size `l / n + 1` followed by `n - l % n` sections of size `l / n`
(numpy builds exactly this list before cutting). -/
def sectionSizes (l n : ℕ) : List ℕ :=
  List.replicate (l % n) (l / n + 1) ++ List.replicate (n - l % n) (l / n)

/-- Cut a list into consecutive chunks of the given sizes. -/
def takeChunks {α : Type} : List α → List ℕ → List (List α)
  | _, [] => []
  | xs, s :: ss => xs.take s :: takeChunks (xs.drop s) ss

/-- `np.array_split(ary, n)` along axis 0.  numpy raises
`ValueError("number sections must be larger than 0.")` when `n = 0`. -/
def array_split {α : Type} (xs : List α) (n : ℕ) : Except PyErr (List (List α)) :=
  if n = 0 then .error (.valueError "number sections must be larger than 0.")
  else .ok (takeChunks xs (sectionSizes xs.length n))

/-- A numpy array as the trainer observes it: the entries along axis 0
(`rows`, kept abstract) and the remaining dimensions of the shape
(`colDims`), so `shape = rows.length :: colDims`. -/
structure NPArr (α : Type) where
  rows : List α
  colDims : List ℕ
deriving DecidableEq

/-- `a.shape` of the numpy array. -/
def NPArr.shape {α : Type} (a : NPArr α) : List ℕ := a.rows.length :: a.colDims

/-- `a.ndim` of the numpy array. -/
def NPArr.ndim {α : Type} (a : NPArr α) : ℕ := a.shape.length

/-! ## Constructor validation (`ProtoNNTrainer.__init__` / `__validateInit`) -/

/-- Everything `__validateInit` reads: the sparsity targets, the model
hyperparameters `d` and `L` from `getHyperParams`, the symbolic shapes of
the placeholders `X` and `Y` (a TensorFlow dimension is either known or
`None`, hence `Option`), and the requested loss type. -/
structure ValidateCfg where
  sW : ℚ
  sB : ℚ
  sZ : ℚ
  d : ℕ
  L : ℕ
  Xshape : List (Option ℕ)
  Yshape : List (Option ℕ)
  lossType : String
deriving DecidableEq

/-- Message built at lines 45-46 of the source. -/
def sparsityMsg : String := "Sparcity value should be between 0 and 1 (both inclusive)."

/-- Message built at lines 51-52 of the source. -/
def yShapeMsg : String :=
  "Y should be of dimension [-1, num labels/classes] specified as part of ProtoNN object."

/-- Message built at lines 55-56 of the source. -/
def xShapeMsg : String :=
  "X should be of dimension [-1, featureDimension] specified as part of ProtoNN object."

/-- Message built at line 60 of the source. -/
def lossTypeMsg : String := "Values can be \x27l2\x27, or \x27xentropy\x27"

/-- Lines 47-49: the three sparsity asserts, in source order (W, then B,
then Z), each tagging the message with the offending parameter. -/
def checkSparsity (c : ValidateCfg) : Except PyErr Unit :=
  if ¬ (0 ≤ c.sW ∧ c.sW ≤ 1) then .error (.assertionError ("W:" ++ sparsityMsg))
  else if ¬ (0 ≤ c.sB ∧ c.sB ≤ 1) then .error (.assertionError ("B:" ++ sparsityMsg))
  else if ¬ (0 ≤ c.sZ ∧ c.sZ ≤ 1) then .error (.assertionError ("Z:" ++ sparsityMsg))
  else .ok ()

/-- Lines 53-54: `Y.shape` must have rank 2 and trailing dimension `L`. -/
def checkYShape (c : ValidateCfg) : Except PyErr Unit :=
  if ¬ (c.Yshape.length = 2) then .error (.assertionError yShapeMsg)
  else if ¬ (c.Yshape.getD 1 none = some c.L) then .error (.assertionError yShapeMsg)
  else .ok ()

/-- Lines 57-58: `X.shape` must have rank 2 and trailing dimension `d`. -/
def checkXShape (c : ValidateCfg) : Except PyErr Unit :=
  if ¬ (c.Xshape.length = 2) then .error (.assertionError xShapeMsg)
  else if ¬ (c.Xshape.getD 1 none = some c.d) then .error (.assertionError xShapeMsg)
  else .ok ()

/-- Lines 60-62: the loss type must be one of the two supported kinds,
otherwise a ValueError listing them is raised. -/
def checkLossType (c : ValidateCfg) : Except PyErr Unit :=
  if c.lossType ∉ ["l2", "xentropy"] then .error (.valueError lossTypeMsg)
  else .ok ()

/-- `__validateInit` (lines 43-63): the checks run in source order —
sparsity of W, B, Z, then the shape of Y, then the shape of X, then the
loss type — and the first failure aborts construction with its error. -/
def validateInit (c : ValidateCfg) : Except PyErr Bool :=
  match checkSparsity c with
  | .error e => .error e
  | .ok _ =>
    match checkYShape c with
    | .error e => .error e
    | .ok _ =>
      match checkXShape c with
      | .error e => .error e
      | .ok _ =>
        match checkLossType c with
        | .error e => .error e
        | .ok _ => .ok true

/-! ## Loss graph (`__lossGraph`, lines 65-84) -/

/-- `tf.nn.l2_loss(t)`: half the sum of squares of the entries. -/
def l2_loss (t : List ℚ) : ℚ := (t.map fun v => v * v).sum / 2

/-- Plain sum of squares, used by the spec-side formula below. -/
def sumSq (t : List ℚ) : ℚ := (t.map fun v => v * v).sum

/-- The four matrices returned by `getModelMatrices`; the fourth is
intentionally unused by the loss graph. -/
structure ModelMatrices where
  W : List ℚ
  B : List ℚ
  Z : List ℚ
  unusedFourth : List ℚ

/-- The `l2` branch of `__lossGraph` (lines 69-74), transcribed
literally: `loss_0 = tf.nn.l2_loss(Y - pnnOut)`, then
`reg = l1*l2_loss(W) + l2*l2_loss(B)`, `reg += l3*l2_loss(Z)`,
`loss = loss_0 + reg`. -/
def lossGraphL2 (Y pnnOut : List ℚ) (regW regB regZ : ℚ) (M : ModelMatrices) : ℚ :=
  let loss_0 := l2_loss (List.zipWith (fun a b => a - b) Y pnnOut)
  let reg0 := regW * l2_loss M.W + regB * l2_loss M.B
  let reg := reg0 + regZ * l2_loss M.Z
  loss_0 + reg

/-- `__lossGraph` (lines 65-84).  The cross-entropy data-fit term
(softmax cross entropy averaged over the batch) involves transcendental
functions of the opaque engine and is passed in as an abstract collaborator
function `xentMean logits labels`; the regularization structure of that
branch is transcribed literally.  A loss type outside the two branches
leaves the local `loss` unbound in Python, modelled as `none`. -/
def lossGraph (lossType : String) (xentMean : List ℚ → List ℚ → ℚ)
    (Y pnnOut : List ℚ) (regW regB regZ : ℚ) (M : ModelMatrices) : Option ℚ :=
  if lossType = "l2" then
    some (lossGraphL2 Y pnnOut regW regB regZ M)
  else if lossType = "xentropy" then
    let loss_0 := xentMean pnnOut Y
    let reg0 := regW * l2_loss M.W + regB * l2_loss M.B
    let reg := reg0 + regZ * l2_loss M.Z
    some (loss_0 + reg)
  else none

/-- The formula stated by the spec for the `l2` loss:
`0.5·Σ(Y − ŷ)² + regW·0.5·‖W‖² + regB·0.5·‖B‖² + regZ·0.5·‖Z‖²`.
This definition follows the words of the spec, to be compared with
`lossGraphL2`, which follows the source. -/
def specLossL2 (Y yhat : List ℚ) (regW regB regZ : ℚ) (M : ModelMatrices) : ℚ :=
  (1/2) * sumSq (List.zipWith (fun a b => a - b) Y yhat)
    + regW * ((1/2) * sumSq M.W)
    + regB * ((1/2) * sumSq M.B)
    + regZ * ((1/2) * sumSq M.Z)

/-! ## The training loop (`train`, lines 92-157) -/

/-- The five values returned by `getHyperParams`; `train` reads only `d`
and `L`. -/
structure HyperParams where
  d : ℕ
  dcap : ℕ
  m : ℕ
  L : ℕ
  gamma : ℚ

/-- The opaque execution engine: a TensorFlow session together with the
graph nodes the trainer runs on it.  `state` is the value store the
session holds when `train` is entered; `runInit` models running
`tf.global_variables_initializer()`; `runStep` models one
`sess.run(self.trainStep, feed_dict)` on a batch; `runMetrics` models
`sess.run([self.loss, self.accuracy], feed_dict)` on a batch and returns
the pair (loss, accuracy). -/
structure Sess (σ α : Type) where
  state : σ
  runInit : σ → σ
  runStep : σ → List α → List α → σ
  runMetrics : σ → List α → List α → ℚ × ℚ

/-- Observable events of one `train` call, in order: the variable
initialization (line 124), each optimizer step (line 134) with the batch
it was fed, each progress print (line 140, written to `redirFile`), and
each validation-summary print (line 157, plain `print`, i.e. written to
the default output stream, recorded as `none`).  `file = none` stands for
the default output stream. -/
inductive TrainEvent (α F : Type) where
  | initGlobals
  | step (epoch i : ℕ) (batchX batchY : List α)
  | progress (epoch i : ℕ) (loss acc : ℚ) (file : Option F)
  | valLine (epoch : ℕ) (loss acc : ℚ) (file : Option F)
deriving DecidableEq

/-- Lines 101-115 of `train`: the assert chain on `batchSize`,
`totalEpochs`, the ranks and trailing dimensions of the four arrays, and
the ValueError on a `None` session, in source order with the source
messages (including the `psotive` and `valing` typos). -/
def trainChecks {α : Type} {S : Type} (hp : HyperParams) (batchSize totalEpochs : ℤ)
    (x_train x_val y_train y_val : NPArr α) (sess : Option S) : Except PyErr Unit :=
  if ¬ (1 ≤ batchSize) then .error (.assertionError "Batch size should be positive integer")
  else if ¬ (1 ≤ totalEpochs) then .error (.assertionError "Total epochs should be psotive integer")
  else if ¬ (x_train.ndim = 2) then .error (.assertionError "Expected training data to be of rank 2")
  else if ¬ (x_train.colDims.getD 0 0 = hp.d) then
    .error (.assertionError ("Expected x_train to be [-1, " ++ toString hp.d ++ "]"))
  else if ¬ (x_val.ndim = 2) then .error (.assertionError "Expected validation data to be of rank 2")
  else if ¬ (x_val.colDims.getD 0 0 = hp.d) then
    .error (.assertionError ("Expected x_val to be [-1, " ++ toString hp.d ++ "]"))
  else if ¬ (y_train.ndim = 2) then .error (.assertionError "Expected training labels to be of rank 2")
  else if ¬ (y_train.colDims.getD 0 0 = hp.L) then
    .error (.assertionError ("Expected y_train to be [-1, " ++ toString hp.L ++ "]"))
  else if ¬ (y_val.ndim = 2) then .error (.assertionError "Expected valing labels to be of rank 2")
  else if ¬ (y_val.colDims.getD 0 0 = hp.L) then
    .error (.assertionError ("Expected y_val to be [-1, " ++ toString hp.L ++ "]"))
  else if sess.isNone then .error (.valueError "sess must be valid tensorflow session.")
  else .ok ()

/-- Lines 117-122 of `train`:
`trainNumBatches = int(np.ceil(len(x_train)/batchSize))`,
`valNumBatches = int(np.ceil(len(x_val)/batchSize))`, then the four
`np.array_split` calls in source order (x_train, y_train, x_val, y_val);
the first failing split aborts the call with its ValueError. -/
def trainSplit {α : Type} (batchSize : ℕ) (x_train y_train x_val y_val : NPArr α) :
    Except PyErr (List (List α) × List (List α) × List (List α) × List (List α)) :=
  let trainNumBatches := ceilDiv x_train.rows.length batchSize
  let valNumBatches := ceilDiv x_val.rows.length batchSize
  match array_split x_train.rows trainNumBatches with
  | .error e => .error e
  | .ok x_train_batches =>
    match array_split y_train.rows trainNumBatches with
    | .error e => .error e
    | .ok y_train_batches =>
      match array_split x_val.rows valNumBatches with
      | .error e => .error e
      | .ok x_val_batches =>
        match array_split y_val.rows valNumBatches with
        | .error e => .error e
        | .ok y_val_batches => .ok (x_train_batches, y_train_batches, x_val_batches, y_val_batches)

/-- Lines 142-154: the validation accumulation.  For each validation
batch `sess.run([self.accuracy, self.loss])` is evaluated on the current
(unchanging) session state and the pair of running sums
(accuracy sum, loss sum) is built up from `(0.0, 0.0)`. -/
def valSums {σ α : Type} (s : Sess σ α) (st : σ) (vbs : List (List α × List α)) : ℚ × ℚ :=
  vbs.foldl (fun p b =>
    let m := s.runMetrics st b.1 b.2
    (p.1 + m.2, p.2 + m.1)) (0, 0)

/-- Lines 127-140: the inner batch loop of one epoch, starting at batch
index `i`.  Each iteration runs one optimizer step, then evaluates
`i % printStep`: Python raises
`ZeroDivisionError("integer division or modulo by zero")` when
`printStep = 0`, and otherwise prints a progress line (to `redirFile`)
whenever the index is divisible by `printStep`, using the metrics of the
just-updated state on the same batch. -/
def runEpochBatches {σ α F : Type} (s : Sess σ α) (printStep : ℤ) (redirFile : Option F)
    (epoch : ℕ) : ℕ → List (List α × List α) → σ → List (TrainEvent α F) × Except PyErr σ
  | _, [], st => ([], .ok st)
  | i, b :: rest, st =>
    let st1 := s.runStep st b.1 b.2
    let ev : TrainEvent α F := .step epoch i b.1 b.2
    if printStep = 0 then
      ([ev], .error (.zeroDivisionError "integer division or modulo by zero"))
    else if (i : ℤ) % printStep = 0 then
      let m := s.runMetrics st1 b.1 b.2
      let ev2 : TrainEvent α F := .progress epoch i m.1 m.2 redirFile
      let r := runEpochBatches s printStep redirFile epoch (i + 1) rest st1
      (ev :: ev2 :: r.1, r.2)
    else
      let r := runEpochBatches s printStep redirFile epoch (i + 1) rest st1
      (ev :: r.1, r.2)

/-- Lines 126-157: the epoch loop.  `n` epochs remain and `epoch` is the
current zero-based epoch number.  After the batches of an epoch, when the
1-indexed epoch count is divisible by 3 (line 141), the validation sums
are divided by `len(y_val_batches)` (`nVal`) and the summary line is
printed by a plain `print`, i.e. to the default output stream (`none`).
An error from the batch loop aborts everything, as in Python. -/
def runEpochs {σ α F : Type} (s : Sess σ α) (printStep : ℤ) (redirFile : Option F)
    (tb vb : List (List α × List α)) (nVal : ℕ) :
    ℕ → ℕ → σ → List (TrainEvent α F) × Except PyErr σ
  | _, 0, st => ([], .ok st)
  | epoch, Nat.succ n, st =>
    match runEpochBatches s printStep redirFile epoch 0 tb st with
    | (tr1, .error e) => (tr1, .error e)
    | (tr1, .ok st1) =>
      if (epoch + 1) % 3 = 0 then
        let p := valSums s st1 vb
        let acc := p.1 / (nVal : ℚ)
        let loss := p.2 / (nVal : ℚ)
        let r := runEpochs s printStep redirFile tb vb nVal (epoch + 1) n st1
        (tr1 ++ TrainEvent.valLine epoch loss acc none :: r.1, r.2)
      else
        let r := runEpochs s printStep redirFile tb vb nVal (epoch + 1) n st1
        (tr1 ++ r.1, r.2)

namespace ProtoNNTrainer

/-- `ProtoNNTrainer.train` (lines 92-157): the assert chain, then the
batch partitioning, then (unless `noInit`) the variable initialization,
then the epoch loop.  The result is the ordered list of observable
events together with either the final session state or the Python
exception that aborted the call; an error before the partitioning yields
an empty event list. -/
def train {σ α F : Type} (hp : HyperParams) (batchSize totalEpochs : ℤ)
    (sess : Option (Sess σ α)) (x_train x_val y_train y_val : NPArr α)
    (noInit : Bool) (redirFile : Option F) (printStep : ℤ) :
    List (TrainEvent α F) × Except PyErr σ :=
  match trainChecks hp batchSize totalEpochs x_train x_val y_train y_val sess with
  | .error e => ([], .error e)
  | .ok _ =>
    match sess with
    | none => ([], .error (.valueError "sess must be valid tensorflow session."))
    | some s =>
      match trainSplit batchSize.toNat x_train y_train x_val y_val with
      | .error e => ([], .error e)
      | .ok (xtb, ytb, xvb, yvb) =>
        let initTr : List (TrainEvent α F) := if noInit then [] else [.initGlobals]
        let st1 := if noInit then s.state else s.runInit s.state
        let r := runEpochs s printStep redirFile (xtb.zip ytb) (xvb.zip yvb)
          yvb.length 0 totalEpochs.toNat st1
        (initTr ++ r.1, r.2)

end ProtoNNTrainer

/-! ## Trace observers -/

/-- 1-indexed epoch counts at which a validation summary was printed. -/
def valLineEpochs {α F : Type} (tr : List (TrainEvent α F)) : List ℕ :=
  tr.filterMap fun ev =>
    match ev with
    | .valLine e _ _ _ => some (e + 1)
    | _ => none

/-- Output streams the validation summaries were written to. -/
def valLineFiles {α F : Type} (tr : List (TrainEvent α F)) : List (Option F) :=
  tr.filterMap fun ev =>
    match ev with
    | .valLine _ _ _ f => some f
    | _ => none

/-- Number of variable initializations in a trace. -/
def initCount {α F : Type} (tr : List (TrainEvent α F)) : ℕ :=
  tr.countP fun ev =>
    match ev with
    | .initGlobals => true
    | _ => false

/-- Sizes of the batches fed to the optimizer steps, in order. -/
def stepBatchSizes {α F : Type} (tr : List (TrainEvent α F)) : List ℕ :=
  tr.filterMap fun ev =>
    match ev with
    | .step _ _ bx _ => some bx.length
    | _ => none

/-- (epoch, batch index) of every optimizer step, in order. -/
def stepIndices {α F : Type} (tr : List (TrainEvent α F)) : List (ℕ × ℕ) :=
  tr.filterMap fun ev =>
    match ev with
    | .step e i _ _ => some (e, i)
    | _ => none

/-! ## The partition property stated by the amended C1 -/

/-- `cs` partitions `xs` into `ceil(xs.length / b)` contiguous chunks in
original order with no row duplicated or dropped, the chunk sizes being
exactly numpy's balanced section sizes (every chunk has at most `b`
rows, but chunks other than the last may also be smaller than `b`). -/
def isBalancedPartition {α : Type} (b : ℕ) (cs : List (List α)) (xs : List α) : Prop :=
  cs.length = ceilDiv xs.length b ∧
  cs.flatten = xs ∧
  cs.map List.length = sectionSizes xs.length (ceilDiv xs.length b) ∧
  ∀ c ∈ cs, c.length ≤ b

/-! ## Concrete instances used by the witnesses -/

/-- A trivial execution engine on a unit state. -/
def sess0 : Sess Unit ℕ := ⟨(), fun st => st, fun st _ _ => st, fun _ _ _ => (0, 0)⟩

/-- Hyperparameters with `d = 1`, `L = 1`. -/
def hp11 : HyperParams := ⟨1, 1, 1, 1, 1⟩

/-- A 10-row, 1-column array (rows named 0..9). -/
def arr10 : NPArr ℕ := ⟨List.range 10, [1]⟩

/-- A 7-row, 1-column array. -/
def arr7 : NPArr ℕ := ⟨List.range 7, [1]⟩

/-- A 4-row, 1-column array. -/
def arr4 : NPArr ℕ := ⟨List.range 4, [1]⟩

/-- A 1-row, 1-column array. -/
def arr1 : NPArr ℕ := ⟨[0], [1]⟩

/-- An empty 1-column array, shape (0, 1). -/
def arr0 : NPArr ℕ := ⟨[], [1]⟩

/-- A fully valid configuration (`d = L = 1`, loss `l2`). -/
def cfgGood : ValidateCfg := ⟨0, 0, 0, 1, 1, [none, some 1], [none, some 1], "l2"⟩

/-- Valid except `sparcityW = 2`. -/
def cfgBadW : ValidateCfg := ⟨2, 0, 0, 1, 1, [none, some 1], [none, some 1], "l2"⟩

/-- Valid except `sparcityB = 2`. -/
def cfgBadB : ValidateCfg := ⟨0, 2, 0, 1, 1, [none, some 1], [none, some 1], "l2"⟩

/-- Valid except `sparcityZ = -1`. -/
def cfgBadZ : ValidateCfg := ⟨0, 0, -1, 1, 1, [none, some 1], [none, some 1], "l2"⟩

/-- Valid except the loss type is `huber`. -/
def cfgBadLoss : ValidateCfg := ⟨0, 0, 0, 1, 1, [none, some 1], [none, some 1], "huber"⟩

/-- Valid except `Y` has trailing dimension 2 while `L = 1`. -/
def cfgBadY : ValidateCfg := ⟨0, 0, 0, 1, 1, [none, some 1], [none, some 2], "l2"⟩

/-- Valid except `X` has rank 1. -/
def cfgBadX : ValidateCfg := ⟨0, 0, 0, 1, 1, [some 1], [none, some 1], "l2"⟩

/-! ## Helper lemmas about the partitioner -/

theorem takeChunks_length {α : Type} : ∀ (ss : List ℕ) (xs : List α),
    (takeChunks xs ss).length = ss.length
  | [], _ => rfl
  | _ :: ss, xs => by
    simp [takeChunks, takeChunks_length ss]

theorem sectionSizes_sum (l n : ℕ) (hn : 0 < n) : (sectionSizes l n).sum = l := by
  have h1 : l % n < n := Nat.mod_lt _ hn
  have h2 := Nat.div_add_mod l n
  simp only [sectionSizes, List.sum_append, List.sum_replicate, smul_eq_mul]
  have h3 : (n - l % n) * (l / n) = n * (l / n) - l % n * (l / n) := by
    rw [Nat.sub_mul]
  rw [h3, Nat.mul_add, Nat.mul_one]
  have h4 : l % n * (l / n) ≤ n * (l / n) := Nat.mul_le_mul_right _ (le_of_lt h1)
  omega

theorem sectionSizes_length (l n : ℕ) (hn : 0 < n) : (sectionSizes l n).length = n := by
  have h1 : l % n < n := Nat.mod_lt _ hn
  simp [sectionSizes]
  omega

theorem takeChunks_map_length {α : Type} : ∀ (ss : List ℕ) (xs : List α),
    ss.sum = xs.length → (takeChunks xs ss).map List.length = ss := by
  intro ss
  induction ss with
  | nil => intro xs _; rfl
  | cons s ss ih =>
    intro xs h
    simp only [List.sum_cons] at h
    have hs : s ≤ xs.length := by omega
    simp only [takeChunks, List.map_cons, List.length_take, min_eq_left hs]
    rw [ih (xs.drop s) (by simp [List.length_drop]; omega)]

theorem takeChunks_flatten {α : Type} : ∀ (ss : List ℕ) (xs : List α),
    ss.sum = xs.length → (takeChunks xs ss).flatten = xs := by
  intro ss
  induction ss with
  | nil =>
    intro xs h
    simp only [List.sum_nil] at h
    simp [takeChunks, (List.length_eq_zero.mp h.symm)]
  | cons s ss ih =>
    intro xs h
    simp only [List.sum_cons] at h
    have hs : s ≤ xs.length := by omega
    simp only [takeChunks, List.flatten_cons]
    rw [ih (xs.drop s) (by simp [List.length_drop]; omega)]
    exact List.take_append_drop s xs

theorem ceilDiv_pos (l b : ℕ) (hb : 1 ≤ b) (hl : 1 ≤ l) : 1 ≤ ceilDiv l b := by
  have : b ≤ l + b - 1 := by omega
  exact (Nat.one_le_div_iff (by omega)).mpr this

theorem le_ceilDiv_mul (l b : ℕ) (hb : 1 ≤ b) : l ≤ ceilDiv l b * b := by
  have h1 := Nat.div_add_mod (l + b - 1) b
  have h2 : (l + b - 1) % b < b := Nat.mod_lt _ (by omega)
  unfold ceilDiv
  rw [mul_comm]
  omega

theorem sectionSizes_le (l k b : ℕ) (hk : 0 < k) (hlk : l ≤ k * b) :
    ∀ s ∈ sectionSizes l k, s ≤ b := by
  intro s hs
  have h4 := Nat.div_add_mod l k
  simp only [sectionSizes, List.mem_append] at hs
  rcases hs with hs | hs
  · obtain ⟨hr, rfl⟩ := List.mem_replicate.mp hs
    by_contra hq
    have hq2 : b ≤ l / k := by omega
    have h5 : k * b ≤ k * (l / k) := Nat.mul_le_mul_left _ hq2
    omega
  · have hs2 := List.eq_of_mem_replicate hs
    subst hs2
    have h5 : l / k ≤ k * b / k := Nat.div_le_div_right hlk
    rwa [Nat.mul_div_cancel_left _ hk] at h5

theorem array_split_ok {α : Type} (xs : List α) (n : ℕ) (hn : n ≠ 0) :
    array_split xs n = .ok (takeChunks xs (sectionSizes xs.length n)) := by
  simp [array_split, hn]

theorem balancedPartition_takeChunks {α : Type} (b : ℕ) (hb : 1 ≤ b) (xs : List α)
    (hxs : xs ≠ []) :
    isBalancedPartition b (takeChunks xs (sectionSizes xs.length (ceilDiv xs.length b))) xs := by
  have hl : 1 ≤ xs.length := List.length_pos.mpr hxs
  have hk : 0 < ceilDiv xs.length b := ceilDiv_pos _ _ hb hl
  have hsum : (sectionSizes xs.length (ceilDiv xs.length b)).sum = xs.length :=
    sectionSizes_sum _ _ hk
  refine ⟨?_, takeChunks_flatten _ _ hsum, takeChunks_map_length _ _ hsum, ?_⟩
  · rw [takeChunks_length, sectionSizes_length _ _ hk]
  · intro c hc
    have hmem : c.length ∈ (takeChunks xs (sectionSizes xs.length (ceilDiv xs.length b))).map
        List.length := List.mem_map_of_mem _ hc
    rw [takeChunks_map_length _ _ hsum] at hmem
    exact sectionSizes_le _ _ _ hk (le_ceilDiv_mul _ _ hb) _ hmem

theorem trainSplit_ok {α : Type} (b : ℕ) (xt yt xv yv : NPArr α)
    (hb : 1 ≤ b) (hxt : xt.rows ≠ []) (hxv : xv.rows ≠ []) :
    trainSplit b xt yt xv yv = .ok
      (takeChunks xt.rows (sectionSizes xt.rows.length (ceilDiv xt.rows.length b)),
       takeChunks yt.rows (sectionSizes yt.rows.length (ceilDiv xt.rows.length b)),
       takeChunks xv.rows (sectionSizes xv.rows.length (ceilDiv xv.rows.length b)),
       takeChunks yv.rows (sectionSizes yv.rows.length (ceilDiv xv.rows.length b))) := by
  have hkT : ceilDiv xt.rows.length b ≠ 0 := by
    have := ceilDiv_pos xt.rows.length b hb (List.length_pos.mpr hxt)
    omega
  have hkV : ceilDiv xv.rows.length b ≠ 0 := by
    have := ceilDiv_pos xv.rows.length b hb (List.length_pos.mpr hxv)
    omega
  simp only [trainSplit, array_split_ok _ _ hkT, array_split_ok _ _ hkV]

set_option maxHeartbeats 1000000 in
theorem trainChecks_ok_iff {α S : Type} (hp : HyperParams) (batchSize totalEpochs : ℤ)
    (xt xv yt yv : NPArr α) (sess : Option S) :
    trainChecks hp batchSize totalEpochs xt xv yt yv sess = .ok () ↔
      (1 ≤ batchSize ∧ 1 ≤ totalEpochs ∧
       xt.ndim = 2 ∧ xt.colDims.getD 0 0 = hp.d ∧
       xv.ndim = 2 ∧ xv.colDims.getD 0 0 = hp.d ∧
       yt.ndim = 2 ∧ yt.colDims.getD 0 0 = hp.L ∧
       yv.ndim = 2 ∧ yv.colDims.getD 0 0 = hp.L ∧
       sess ≠ none) := by
  simp only [trainChecks]
  split_ifs with h1 h2 h3 h4 h5 h6 h7 h8 h9 h10 h11 <;>
    simp_all [Option.isNone_iff_eq_none]

/-! ## Helper lemmas about the trace observers -/

theorem valLineEpochs_nil {α F : Type} : valLineEpochs ([] : List (TrainEvent α F)) = [] := rfl

theorem valLineEpochs_cons_init {α F : Type} (tr : List (TrainEvent α F)) :
    valLineEpochs (.initGlobals :: tr) = valLineEpochs tr := rfl

theorem valLineEpochs_cons_step {α F : Type} (e i : ℕ) (bx yb : List α)
    (tr : List (TrainEvent α F)) :
    valLineEpochs (.step e i bx yb :: tr) = valLineEpochs tr := rfl

theorem valLineEpochs_cons_progress {α F : Type} (e i : ℕ) (l a : ℚ) (f : Option F)
    (tr : List (TrainEvent α F)) :
    valLineEpochs (.progress e i l a f :: tr) = valLineEpochs tr := rfl

theorem valLineEpochs_cons_valLine {α F : Type} (e : ℕ) (l a : ℚ) (f : Option F)
    (tr : List (TrainEvent α F)) :
    valLineEpochs (.valLine e l a f :: tr) = (e + 1) :: valLineEpochs tr := rfl

theorem valLineEpochs_append {α F : Type} (t1 t2 : List (TrainEvent α F)) :
    valLineEpochs (t1 ++ t2) = valLineEpochs t1 ++ valLineEpochs t2 :=
  List.filterMap_append _ _ _

theorem valLineFiles_nil {α F : Type} : valLineFiles ([] : List (TrainEvent α F)) = [] := rfl

theorem valLineFiles_cons_init {α F : Type} (tr : List (TrainEvent α F)) :
    valLineFiles (.initGlobals :: tr) = valLineFiles tr := rfl

theorem valLineFiles_cons_step {α F : Type} (e i : ℕ) (bx yb : List α)
    (tr : List (TrainEvent α F)) :
    valLineFiles (.step e i bx yb :: tr) = valLineFiles tr := rfl

theorem valLineFiles_cons_progress {α F : Type} (e i : ℕ) (l a : ℚ) (f : Option F)
    (tr : List (TrainEvent α F)) :
    valLineFiles (.progress e i l a f :: tr) = valLineFiles tr := rfl

theorem valLineFiles_cons_valLine {α F : Type} (e : ℕ) (l a : ℚ) (f : Option F)
    (tr : List (TrainEvent α F)) :
    valLineFiles (.valLine e l a f :: tr) = f :: valLineFiles tr := rfl

theorem valLineFiles_append {α F : Type} (t1 t2 : List (TrainEvent α F)) :
    valLineFiles (t1 ++ t2) = valLineFiles t1 ++ valLineFiles t2 :=
  List.filterMap_append _ _ _

theorem initCount_nil {α F : Type} : initCount ([] : List (TrainEvent α F)) = 0 := rfl

theorem initCount_cons_init {α F : Type} (tr : List (TrainEvent α F)) :
    initCount (.initGlobals :: tr) = initCount tr + 1 := by
  simp [initCount, List.countP_cons]

theorem initCount_cons_step {α F : Type} (e i : ℕ) (bx yb : List α)
    (tr : List (TrainEvent α F)) :
    initCount (.step e i bx yb :: tr) = initCount tr := rfl

theorem initCount_cons_progress {α F : Type} (e i : ℕ) (l a : ℚ) (f : Option F)
    (tr : List (TrainEvent α F)) :
    initCount (.progress e i l a f :: tr) = initCount tr := rfl

theorem initCount_cons_valLine {α F : Type} (e : ℕ) (l a : ℚ) (f : Option F)
    (tr : List (TrainEvent α F)) :
    initCount (.valLine e l a f :: tr) = initCount tr := rfl

theorem initCount_append {α F : Type} (t1 t2 : List (TrainEvent α F)) :
    initCount (t1 ++ t2) = initCount t1 + initCount t2 :=
  List.countP_append _ _ _

/-! ## Helper lemmas about the training loop -/

theorem runEpochBatches_ok {σ α F : Type} (s : Sess σ α) (printStep : ℤ)
    (redirFile : Option F) (epoch : ℕ) (hps : printStep ≠ 0) :
    ∀ (bs : List (List α × List α)) (i : ℕ) (st : σ),
      (runEpochBatches s printStep redirFile epoch i bs st).2 =
        .ok (bs.foldl (fun st2 b => s.runStep st2 b.1 b.2) st) := by
  intro bs
  induction bs with
  | nil => intro i st; rfl
  | cons b rest ih =>
    intro i st
    simp only [runEpochBatches, if_neg hps, List.foldl_cons]
    split
    · exact ih (i + 1) (s.runStep st b.1 b.2)
    · exact ih (i + 1) (s.runStep st b.1 b.2)

theorem runEpochBatches_valLineEpochs {σ α F : Type} (s : Sess σ α) (printStep : ℤ)
    (redirFile : Option F) (epoch : ℕ) :
    ∀ (bs : List (List α × List α)) (i : ℕ) (st : σ),
      valLineEpochs (runEpochBatches s printStep redirFile epoch i bs st).1 = [] := by
  intro bs
  induction bs with
  | nil => intro i st; rfl
  | cons b rest ih =>
    intro i st
    simp only [runEpochBatches]
    split_ifs with h1 h2
    · rfl
    · rw [valLineEpochs_cons_step, valLineEpochs_cons_progress]
      exact ih (i + 1) (s.runStep st b.1 b.2)
    · rw [valLineEpochs_cons_step]
      exact ih (i + 1) (s.runStep st b.1 b.2)

theorem runEpochBatches_valLineFiles {σ α F : Type} (s : Sess σ α) (printStep : ℤ)
    (redirFile : Option F) (epoch : ℕ) :
    ∀ (bs : List (List α × List α)) (i : ℕ) (st : σ),
      valLineFiles (runEpochBatches s printStep redirFile epoch i bs st).1 = [] := by
  intro bs
  induction bs with
  | nil => intro i st; rfl
  | cons b rest ih =>
    intro i st
    simp only [runEpochBatches]
    split_ifs with h1 h2
    · rfl
    · rw [valLineFiles_cons_step, valLineFiles_cons_progress]
      exact ih (i + 1) (s.runStep st b.1 b.2)
    · rw [valLineFiles_cons_step]
      exact ih (i + 1) (s.runStep st b.1 b.2)

theorem runEpochBatches_initCount {σ α F : Type} (s : Sess σ α) (printStep : ℤ)
    (redirFile : Option F) (epoch : ℕ) :
    ∀ (bs : List (List α × List α)) (i : ℕ) (st : σ),
      initCount (runEpochBatches s printStep redirFile epoch i bs st).1 = 0 := by
  intro bs
  induction bs with
  | nil => intro i st; rfl
  | cons b rest ih =>
    intro i st
    simp only [runEpochBatches]
    split_ifs with h1 h2
    · rfl
    · rw [initCount_cons_step, initCount_cons_progress]
      exact ih (i + 1) (s.runStep st b.1 b.2)
    · rw [initCount_cons_step]
      exact ih (i + 1) (s.runStep st b.1 b.2)

theorem runEpochs_spec {σ α F : Type} (s : Sess σ α) (ps : ℤ) (rf : Option F)
    (tb vb : List (List α × List α)) (nV : ℕ) (hps : ps ≠ 0) :
    ∀ (n e : ℕ) (st : σ),
      valLineEpochs (runEpochs s ps rf tb vb nV e n st).1 =
        (List.range' e n).filterMap
          (fun x => if (x + 1) % 3 = 0 then some (x + 1) else none) ∧
      (∀ f ∈ valLineFiles (runEpochs s ps rf tb vb nV e n st).1, f = none) ∧
      initCount (runEpochs s ps rf tb vb nV e n st).1 = 0 ∧
      ∃ stF, (runEpochs s ps rf tb vb nV e n st).2 = .ok stF := by
  intro n
  induction n with
  | zero =>
    intro e st
    refine ⟨rfl, ?_, rfl, ⟨st, rfl⟩⟩
    intro f hf
    simp [runEpochs, valLineFiles_nil] at hf
  | succ m ih =>
    intro e st
    have hb2 := runEpochBatches_ok s ps rf e hps tb 0 st
    have hve := runEpochBatches_valLineEpochs (F := F) s ps rf e tb 0 st
    have hvf := runEpochBatches_valLineFiles (F := F) s ps rf e tb 0 st
    have hic := runEpochBatches_initCount (F := F) s ps rf e tb 0 st
    rcases hrb : runEpochBatches s ps rf e 0 tb st with ⟨tr1, r1⟩
    rw [hrb] at hb2 hve hvf hic
    simp only at hb2 hve hvf hic
    subst hb2
    have hr : List.range' e (m + 1) = e :: List.range' (e + 1) m := by
      simp [List.range']
    obtain ⟨ih1, ih2, ih3, stF, ih4⟩ :=
      ih (e + 1) (tb.foldl (fun st2 b => s.runStep st2 b.1 b.2) st)
    simp only [runEpochs, hrb]
    split_ifs with h3
    · rw [hr]
      simp only [List.filterMap_cons, if_pos h3]
      refine ⟨?_, ?_, ?_, ⟨stF, ih4⟩⟩
      · rw [valLineEpochs_append, valLineEpochs_cons_valLine, hve, ih1]
        rfl
      · intro f hf
        rw [valLineFiles_append, valLineFiles_cons_valLine, hvf] at hf
        simp only [List.nil_append, List.mem_cons] at hf
        rcases hf with rfl | hf
        · rfl
        · exact ih2 f hf
      · rw [initCount_append, initCount_cons_valLine, hic, ih3]
    · rw [hr]
      simp only [List.filterMap_cons, if_neg h3]
      refine ⟨?_, ?_, ?_, ⟨stF, ih4⟩⟩
      · rw [valLineEpochs_append, hve, ih1]
        rfl
      · intro f hf
        rw [valLineFiles_append, hvf] at hf
        simp only [List.nil_append] at hf
        exact ih2 f hf
      · rw [initCount_append, hic, ih3]

theorem train_unfold_ok {σ α F : Type} (hp : HyperParams) (batchSize totalEpochs : ℤ)
    (s : Sess σ α) (xt xv yt yv : NPArr α) (noInit : Bool) (rf : Option F) (ps : ℤ)
    (xtb ytb xvb yvb : List (List α))
    (hc : trainChecks hp batchSize totalEpochs xt xv yt yv (some s) = .ok ())
    (hsplit : trainSplit batchSize.toNat xt yt xv yv = .ok (xtb, ytb, xvb, yvb)) :
    ProtoNNTrainer.train hp batchSize totalEpochs (some s) xt xv yt yv noInit rf ps =
      ((if noInit then [] else [TrainEvent.initGlobals]) ++
        (runEpochs s ps rf (xtb.zip ytb) (xvb.zip yvb) yvb.length 0 totalEpochs.toNat
          (if noInit then s.state else s.runInit s.state)).1,
       (runEpochs s ps rf (xtb.zip ytb) (xvb.zip yvb) yvb.length 0 totalEpochs.toNat
          (if noInit then s.state else s.runInit s.state)).2) := by
  simp only [ProtoNNTrainer.train, hc, hsplit]

/-! ## Claims -/

/-- C3: for a trainer constructed with loss kind l2, the loss graph equals
0.5 times the sum of squared differences between Y and the model
prediction, plus regW times half the squared L2 norm of W, plus regB
times half the squared L2 norm of B, plus regZ times half the squared L2
norm of Z, with no reduction beyond the sum across the full
predicted/label tensors. -/
theorem C3_l2LossGraph (xm : List ℚ → List ℚ → ℚ) (Y yhat : List ℚ)
    (regW regB regZ : ℚ) (M : ModelMatrices) :
    lossGraph "l2" xm Y yhat regW regB regZ M =
      some (specLossL2 Y yhat regW regB regZ M) := by
  have h : lossGraphL2 Y yhat regW regB regZ M = specLossL2 Y yhat regW regB regZ M := by
    simp only [lossGraphL2, specLossL2, l2_loss, sumSq]
    ring
  simp [lossGraph, h]

/-- C4: a sparsity target (sparcityW, sparcityB or sparcityZ) outside
[0,1] makes construction fail with a configuration (assertion) error
whose message names the offending parameter — checked in source order W,
B, Z, so each parameter is reported when the ones checked before it are
in range — and when all three lie in [0,1] the sparsity checks pass. -/
theorem C4_sparsityValidation (c : ValidateCfg) :
    (¬ (0 ≤ c.sW ∧ c.sW ≤ 1) →
      validateInit c = .error (.assertionError ("W:" ++ sparsityMsg))) ∧
    ((0 ≤ c.sW ∧ c.sW ≤ 1) → ¬ (0 ≤ c.sB ∧ c.sB ≤ 1) →
      validateInit c = .error (.assertionError ("B:" ++ sparsityMsg))) ∧
    ((0 ≤ c.sW ∧ c.sW ≤ 1) → (0 ≤ c.sB ∧ c.sB ≤ 1) → ¬ (0 ≤ c.sZ ∧ c.sZ ≤ 1) →
      validateInit c = .error (.assertionError ("Z:" ++ sparsityMsg))) ∧
    ((0 ≤ c.sW ∧ c.sW ≤ 1) → (0 ≤ c.sB ∧ c.sB ≤ 1) → (0 ≤ c.sZ ∧ c.sZ ≤ 1) →
      checkSparsity c = .ok ()) := by
  refine ⟨?_, ?_, ?_, ?_⟩
  · intro h
    simp [validateInit, checkSparsity, h]
  · intro h1 h2
    simp [validateInit, checkSparsity, h1, h2]
  · intro h1 h2 h3
    simp [validateInit, checkSparsity, h1, h2, h3]
  · intro h1 h2 h3
    simp [checkSparsity, h1, h2, h3]

/-- Witness for C4 at concrete configurations: sparcityW = 2 is reported
as W, sparcityB = 2 as B, sparcityZ = -1 as Z, and an all-valid
configuration passes the sparsity checks. -/
theorem C4_witness :
    validateInit cfgBadW = .error (.assertionError ("W:" ++ sparsityMsg)) ∧
    validateInit cfgBadB = .error (.assertionError ("B:" ++ sparsityMsg)) ∧
    validateInit cfgBadZ = .error (.assertionError ("Z:" ++ sparsityMsg)) ∧
    checkSparsity cfgGood = .ok () :=
  ⟨(C4_sparsityValidation cfgBadW).1 (by decide),
   (C4_sparsityValidation cfgBadB).2.1 (by decide) (by decide),
   (C4_sparsityValidation cfgBadZ).2.2.1 (by decide) (by decide) (by decide),
   (C4_sparsityValidation cfgGood).2.2.2 (by decide) (by decide) (by decide)⟩

/-- C5: with the earlier checks passing, a loss kind outside
{l2, xentropy} makes construction fail with a ValueError whose message
lists the two accepted kinds, and each of the two supported kinds passes
the loss-kind check (construction validation succeeds). -/
theorem C5_lossTypeValidation (c : ValidateCfg)
    (hs : checkSparsity c = .ok ()) (hy : checkYShape c = .ok ())
    (hx : checkXShape c = .ok ()) :
    (c.lossType ∉ ["l2", "xentropy"] →
      validateInit c = .error (.valueError lossTypeMsg)) ∧
    (c.lossType ∈ ["l2", "xentropy"] → validateInit c = .ok true) := by
  constructor
  · intro h
    simp [validateInit, hs, hy, hx, checkLossType, h]
  · intro h
    simp [validateInit, hs, hy, hx, checkLossType, h]

/-- Witness for C5: loss kind huber is rejected with the ValueError
listing the accepted kinds; loss kind l2 passes validation. -/
theorem C5_witness :
    validateInit cfgBadLoss = .error (.valueError lossTypeMsg) ∧
    validateInit cfgGood = .ok true :=
  ⟨(C5_lossTypeValidation cfgBadLoss (by decide) (by decide) (by decide)).1 (by decide),
   (C5_lossTypeValidation cfgGood (by decide) (by decide) (by decide)).2 (by decide)⟩

/-- C6: with the sparsity checks passing, construction fails with the
descriptive Y shape error whenever Y does not have rank 2 with trailing
dimension L (Y is checked first), and with the descriptive X shape error
whenever Y is valid but X does not have rank 2 with trailing dimension
d. -/
theorem C6_shapeValidation (c : ValidateCfg) (hs : checkSparsity c = .ok ()) :
    (¬ (c.Yshape.length = 2 ∧ c.Yshape.getD 1 none = some c.L) →
      validateInit c = .error (.assertionError yShapeMsg)) ∧
    ((c.Yshape.length = 2 ∧ c.Yshape.getD 1 none = some c.L) →
      ¬ (c.Xshape.length = 2 ∧ c.Xshape.getD 1 none = some c.d) →
      validateInit c = .error (.assertionError xShapeMsg)) := by
  constructor
  · intro h
    have e1 : checkYShape c = .error (.assertionError yShapeMsg) := by
      by_cases hA : c.Yshape.length = 2
      · have hB : ¬ (c.Yshape.getD 1 none = some c.L) := fun hb => h ⟨hA, hb⟩
        unfold checkYShape
        rw [if_neg (not_not_intro hA), if_pos hB]
      · unfold checkYShape
        rw [if_pos hA]
    simp [validateInit, hs, e1]
  · intro hY h
    have e1 : checkYShape c = .ok () := by
      unfold checkYShape
      rw [if_neg (not_not_intro hY.1), if_neg (not_not_intro hY.2)]
    have e2 : checkXShape c = .error (.assertionError xShapeMsg) := by
      by_cases hA : c.Xshape.length = 2
      · have hB : ¬ (c.Xshape.getD 1 none = some c.d) := fun hb => h ⟨hA, hb⟩
        unfold checkXShape
        rw [if_neg (not_not_intro hA), if_pos hB]
      · unfold checkXShape
        rw [if_pos hA]
    simp [validateInit, hs, e1, e2]

/-- Witness for C6: a Y placeholder with trailing dimension 2 against
L = 1 fails with the Y shape message; a rank-1 X placeholder (with Y
valid) fails with the X shape message. -/
theorem C6_witness :
    validateInit cfgBadY = .error (.assertionError yShapeMsg) ∧
    validateInit cfgBadX = .error (.assertionError xShapeMsg) :=
  ⟨(C6_shapeValidation cfgBadY (by decide)).1 (by decide),
   (C6_shapeValidation cfgBadX (by decide)).2 (by decide) (by decide)⟩

/-- C7: a call to train with batchSize < 1 or totalEpochs < 1, or any
dataset array failing the rank-2 / trailing-dimension preconditions, or
a None session, fails with a descriptive error and an empty event trace:
nothing is partitioned, no graph execution happens and no parameter is
updated. -/
theorem C7_trainPreconditions {σ α F : Type} (hp : HyperParams)
    (batchSize totalEpochs : ℤ) (sess : Option (Sess σ α)) (xt xv yt yv : NPArr α)
    (noInit : Bool) (rf : Option F) (ps : ℤ)
    (h : batchSize < 1 ∨ totalEpochs < 1 ∨
         xt.ndim ≠ 2 ∨ xt.colDims.getD 0 0 ≠ hp.d ∨
         xv.ndim ≠ 2 ∨ xv.colDims.getD 0 0 ≠ hp.d ∨
         yt.ndim ≠ 2 ∨ yt.colDims.getD 0 0 ≠ hp.L ∨
         yv.ndim ≠ 2 ∨ yv.colDims.getD 0 0 ≠ hp.L ∨
         sess = none) :
    ∃ e, ProtoNNTrainer.train hp batchSize totalEpochs sess xt xv yt yv noInit rf ps =
      ([], .error e) := by
  have hno : trainChecks hp batchSize totalEpochs xt xv yt yv sess ≠ .ok () := by
    intro hok
    rw [trainChecks_ok_iff] at hok
    obtain ⟨k1, k2, k3, k4, k5, k6, k7, k8, k9, k10, k11⟩ := hok
    rcases h with h | h | h | h | h | h | h | h | h | h | h <;>
      first | omega | contradiction
  cases hE : trainChecks hp batchSize totalEpochs xt xv yt yv sess with
  | error e => exact ⟨e, by simp only [ProtoNNTrainer.train, hE]⟩
  | ok u =>
    cases u
    exact absurd hE hno

/-- Witness for C7: batchSize = 0 with otherwise valid arguments fails
with an empty trace. -/
theorem C7_witness :
    ∃ e, ProtoNNTrainer.train hp11 0 1 (some sess0) arr10 arr1 arr10 arr1 false
      (none : Option Unit) 10 = ([], .error e) :=
  C7_trainPreconditions hp11 0 1 (some sess0) arr10 arr1 arr10 arr1 false none 10
    (Or.inl (by decide))

/-- C1 counterexample: for N = 10 training rows and batchSize = 3 the code
partitions into ceil(10/3) = 4 batches, but np.array_split balances the
sections, giving sizes [3, 3, 2, 2] — not [3, 3, 3, 1] as the claim
states (the third batch already has only 2 rows).  Both the partition
stage and the batches actually fed to the optimizer by train show it. -/
theorem C1_counterexample :
    trainSplit 3 arr10 arr10 arr1 arr1 =
      .ok ([[0, 1, 2], [3, 4, 5], [6, 7], [8, 9]],
           [[0, 1, 2], [3, 4, 5], [6, 7], [8, 9]], [[0]], [[0]]) ∧
    stepBatchSizes (ProtoNNTrainer.train hp11 3 1 (some sess0) arr10 arr1 arr10 arr1
      false (none : Option Unit) 10).1 = [3, 3, 2, 2] ∧
    ([3, 3, 2, 2] : List ℕ) ≠ [3, 3, 3, 1] :=
  ⟨by decide, by decide, by decide⟩

/-- C1 (amended): for every call to train (with matching row counts,
non-empty training and validation sets and batchSize ≥ 1), each of the
four dataset arrays is partitioned into ceil(N/batchSize) contiguous
chunks in original row order with no row duplicated or dropped, the chunk
sizes being numpy's balanced section sizes: with k = ceil(N/batchSize),
the first N mod k chunks have N/k + 1 rows and the rest N/k rows — every
chunk has at most batchSize rows, but chunks other than the last may also
be smaller (for N = 10, batchSize = 3 the sizes are [3, 3, 2, 2]). -/
theorem C1_balancedSplit {α : Type} (b : ℕ) (hb : 1 ≤ b) (xt yt xv yv : NPArr α)
    (hxt : xt.rows ≠ []) (hxv : xv.rows ≠ [])
    (hyt : yt.rows.length = xt.rows.length) (hyv : yv.rows.length = xv.rows.length) :
    ∃ xtb ytb xvb yvb,
      trainSplit b xt yt xv yv = .ok (xtb, ytb, xvb, yvb) ∧
      isBalancedPartition b xtb xt.rows ∧ isBalancedPartition b ytb yt.rows ∧
      isBalancedPartition b xvb xv.rows ∧ isBalancedPartition b yvb yv.rows := by
  have hxtl : 0 < xt.rows.length := List.length_pos.mpr hxt
  have hxvl : 0 < xv.rows.length := List.length_pos.mpr hxv
  have hytne : yt.rows ≠ [] := by
    intro hnil
    rw [hnil] at hyt
    simp at hyt
    omega
  have hyvne : yv.rows ≠ [] := by
    intro hnil
    rw [hnil] at hyv
    simp at hyv
    omega
  refine ⟨_, _, _, _, trainSplit_ok b xt yt xv yv hb hxt hxv, ?_, ?_, ?_, ?_⟩
  · exact balancedPartition_takeChunks b hb xt.rows hxt
  · have hk : ceilDiv xt.rows.length b = ceilDiv yt.rows.length b := by rw [hyt]
    rw [hk]
    exact balancedPartition_takeChunks b hb yt.rows hytne
  · exact balancedPartition_takeChunks b hb xv.rows hxv
  · have hk : ceilDiv xv.rows.length b = ceilDiv yv.rows.length b := by rw [hyv]
    rw [hk]
    exact balancedPartition_takeChunks b hb yv.rows hyvne

/-- Witness for the amended C1 at N = 10, batchSize = 3. -/
theorem C1_witness :
    ∃ xtb ytb xvb yvb,
      trainSplit 3 arr10 arr10 arr1 arr1 = .ok (xtb, ytb, xvb, yvb) ∧
      isBalancedPartition 3 xtb arr10.rows ∧ isBalancedPartition 3 ytb arr10.rows ∧
      isBalancedPartition 3 xvb arr1.rows ∧ isBalancedPartition 3 yvb arr1.rows :=
  C1_balancedSplit 3 (by decide) arr10 arr10 arr1 arr1 (by decide) (by decide) rfl rfl

/-- C9 counterexample: an empty x_train (shape (0,1)) and a 1-row y_train
individually pass every rank-2 / trailing-dimension precondition and all
precondition checks succeed, yet the arrays are NOT split into
ceil(len(x_train)/batchSize) = 0 chunks: np.array_split raises a
ValueError, so the claim's conclusion fails at this input. -/
theorem C9_counterexample :
    trainChecks hp11 3 1 arr0 arr1 arr1 arr1 (some sess0) = .ok () ∧
    arr0.rows.length ≠ arr1.rows.length ∧
    trainSplit 3 arr0 arr1 arr1 arr1 =
      .error (.valueError "number sections must be larger than 0.") ∧
    ProtoNNTrainer.train hp11 3 1 (some sess0) arr0 arr1 arr1 arr1 false
      (none : Option Unit) 10 =
      ([], .error (.valueError "number sections must be larger than 0.")) :=
  ⟨by decide, by decide, by decide, by decide⟩

/-- C9 (amended): train never compares the row counts of x_train and
y_train (nor of x_val and y_val): for any arrays that individually pass
the rank-2 and trailing-dimension checks but have different row counts,
all precondition checks pass, and — provided x_train (resp. x_val) is
non-empty, since an empty one instead makes np.array_split raise a
section-count ValueError — both training arrays are split into
ceil(len(x_train)/batchSize) chunks, a count derived from x_train's
length alone (and likewise both validation arrays into
ceil(len(x_val)/batchSize) chunks), so mismatched feature/label row
counts are silently accepted. -/
theorem C9_noRowCountCheck {σ α : Type} (hp : HyperParams) (batchSize totalEpochs : ℤ)
    (s : Sess σ α) (xt xv yt yv : NPArr α)
    (hb : 1 ≤ batchSize) (hte : 1 ≤ totalEpochs)
    (hxt2 : xt.ndim = 2) (hxtd : xt.colDims.getD 0 0 = hp.d)
    (hxv2 : xv.ndim = 2) (hxvd : xv.colDims.getD 0 0 = hp.d)
    (hyt2 : yt.ndim = 2) (hytd : yt.colDims.getD 0 0 = hp.L)
    (hyv2 : yv.ndim = 2) (hyvd : yv.colDims.getD 0 0 = hp.L)
    (_hneq : yt.rows.length ≠ xt.rows.length)
    (hxtne : xt.rows ≠ []) (hxvne : xv.rows ≠ []) :
    trainChecks hp batchSize totalEpochs xt xv yt yv (some s) = .ok () ∧
    ∃ xtb ytb xvb yvb,
      trainSplit batchSize.toNat xt yt xv yv = .ok (xtb, ytb, xvb, yvb) ∧
      xtb.length = ceilDiv xt.rows.length batchSize.toNat ∧
      ytb.length = ceilDiv xt.rows.length batchSize.toNat ∧
      xvb.length = ceilDiv xv.rows.length batchSize.toNat ∧
      yvb.length = ceilDiv xv.rows.length batchSize.toNat := by
  constructor
  · rw [trainChecks_ok_iff]
    exact ⟨hb, hte, hxt2, hxtd, hxv2, hxvd, hyt2, hytd, hyv2, hyvd, by simp⟩
  · have hbn : 1 ≤ batchSize.toNat := by omega
    have hkT : 0 < ceilDiv xt.rows.length batchSize.toNat :=
      ceilDiv_pos _ _ hbn (List.length_pos.mpr hxtne)
    have hkV : 0 < ceilDiv xv.rows.length batchSize.toNat :=
      ceilDiv_pos _ _ hbn (List.length_pos.mpr hxvne)
    refine ⟨_, _, _, _, trainSplit_ok _ xt yt xv yv hbn hxtne hxvne, ?_, ?_, ?_, ?_⟩
    · rw [takeChunks_length, sectionSizes_length _ _ hkT]
    · rw [takeChunks_length, sectionSizes_length _ _ hkT]
    · rw [takeChunks_length, sectionSizes_length _ _ hkV]
    · rw [takeChunks_length, sectionSizes_length _ _ hkV]

/-- Witness for the amended C9: x_train has 10 rows, y_train only 7, yet
every check passes and both are split into ceil(10/3) = 4 chunks. -/
theorem C9_witness :
    trainChecks hp11 3 1 arr10 arr1 arr7 arr1 (some sess0) = .ok () ∧
    ∃ xtb ytb xvb yvb,
      trainSplit (3 : ℤ).toNat arr10 arr7 arr1 arr1 = .ok (xtb, ytb, xvb, yvb) ∧
      xtb.length = ceilDiv arr10.rows.length (3 : ℤ).toNat ∧
      ytb.length = ceilDiv arr10.rows.length (3 : ℤ).toNat ∧
      xvb.length = ceilDiv arr1.rows.length (3 : ℤ).toNat ∧
      yvb.length = ceilDiv arr1.rows.length (3 : ℤ).toNat :=
  C9_noRowCountCheck hp11 3 1 sess0 arr10 arr1 arr7 arr1 (by decide) (by decide)
    (by decide) (by decide) (by decide) (by decide) (by decide) (by decide)
    (by decide) (by decide) (by decide) (by decide) (by decide)

theorem runEpochs_initCount {σ α F : Type} (s : Sess σ α) (ps : ℤ) (rf : Option F)
    (tb vb : List (List α × List α)) (nV : ℕ) :
    ∀ (n e : ℕ) (st : σ), initCount (runEpochs s ps rf tb vb nV e n st).1 = 0 := by
  intro n
  induction n with
  | zero => intro e st; rfl
  | succ m ih =>
    intro e st
    have hic := runEpochBatches_initCount (F := F) s ps rf e tb 0 st
    rcases hrb : runEpochBatches s ps rf e 0 tb st with ⟨tr1, r1⟩
    rw [hrb] at hic
    simp only at hic
    simp only [runEpochs, hrb]
    cases r1 with
    | error e1 => exact hic
    | ok st1 =>
      split_ifs with h3
      · rw [initCount_append, initCount_cons_valLine, hic, ih]
      · rw [initCount_append, hic, ih]

/-- C2: for every completed (error-free) call to train, the validation
summary line — the arithmetic mean of loss and accuracy over all
validation batches — is emitted exactly after each epoch whose 1-indexed
count is divisible by 3 and at no other time (for totalEpochs = 7 only
after epochs 3 and 6), and every such summary is written to the default
output stream (`none`), not to the configurable output sink. -/
theorem C2_valSummarySchedule {σ α F : Type} (hp : HyperParams) (batchSize totalEpochs : ℤ)
    (s : Sess σ α) (xt xv yt yv : NPArr α) (noInit : Bool) (rf : Option F) (ps : ℤ)
    (hc : trainChecks hp batchSize totalEpochs xt xv yt yv (some s) = .ok ())
    (hxt : xt.rows ≠ []) (hxv : xv.rows ≠ []) (hps : ps ≠ 0) :
    valLineEpochs (ProtoNNTrainer.train hp batchSize totalEpochs (some s) xt xv yt yv
        noInit rf ps).1 =
      (List.range totalEpochs.toNat).filterMap
        (fun e => if (e + 1) % 3 = 0 then some (e + 1) else none) ∧
    (∀ f ∈ valLineFiles (ProtoNNTrainer.train hp batchSize totalEpochs (some s) xt xv yt yv
        noInit rf ps).1, f = none) ∧
    ∃ stF, (ProtoNNTrainer.train hp batchSize totalEpochs (some s) xt xv yt yv
        noInit rf ps).2 = .ok stF := by
  have hb : 1 ≤ batchSize :=
    ((trainChecks_ok_iff hp batchSize totalEpochs xt xv yt yv (some s)).mp hc).1
  have hbn : 1 ≤ batchSize.toNat := by omega
  obtain ⟨xtb, ytb, xvb, yvb, hsp⟩ : ∃ a b c d,
      trainSplit batchSize.toNat xt yt xv yv = .ok (a, b, c, d) :=
    ⟨_, _, _, _, trainSplit_ok batchSize.toNat xt yt xv yv hbn hxt hxv⟩
  have htr := train_unfold_ok hp batchSize totalEpochs s xt xv yt yv noInit rf ps
    xtb ytb xvb yvb hc hsp
  have hfst : (ProtoNNTrainer.train hp batchSize totalEpochs (some s) xt xv yt yv
      noInit rf ps).1 =
      (if noInit then ([] : List (TrainEvent α F)) else [TrainEvent.initGlobals]) ++
      (runEpochs s ps rf (xtb.zip ytb) (xvb.zip yvb) yvb.length 0 totalEpochs.toNat
        (if noInit then s.state else s.runInit s.state)).1 := by
    rw [htr]
  have hsnd : (ProtoNNTrainer.train hp batchSize totalEpochs (some s) xt xv yt yv
      noInit rf ps).2 =
      (runEpochs s ps rf (xtb.zip ytb) (xvb.zip yvb) yvb.length 0 totalEpochs.toNat
        (if noInit then s.state else s.runInit s.state)).2 := by
    rw [htr]
  obtain ⟨h1, h2, h3, stF, h4⟩ := runEpochs_spec s ps rf (xtb.zip ytb) (xvb.zip yvb)
    yvb.length hps totalEpochs.toNat 0 (if noInit then s.state else s.runInit s.state)
  have hinit0 : valLineEpochs
      (if noInit then ([] : List (TrainEvent α F)) else [TrainEvent.initGlobals]) = [] := by
    cases noInit <;> rfl
  have hinitf : valLineFiles
      (if noInit then ([] : List (TrainEvent α F)) else [TrainEvent.initGlobals]) = [] := by
    cases noInit <;> rfl
  refine ⟨?_, ?_, ?_⟩
  · rw [hfst, valLineEpochs_append, hinit0, h1, List.range_eq_range', List.nil_append]
  · intro f hf
    rw [hfst, valLineFiles_append, hinitf, List.nil_append] at hf
    exact h2 f hf
  · exact ⟨stF, by rw [hsnd, h4]⟩

/-- Witness for C2 at totalEpochs = 7 with a non-default output sink:
the summaries appear exactly after epochs 3 and 6 and go to the default
stream. -/
theorem C2_witness :
    (valLineEpochs (ProtoNNTrainer.train hp11 3 7 (some sess0) arr4 arr1 arr4 arr1 false
        (some ()) 1).1 =
      (List.range (7 : ℤ).toNat).filterMap
        (fun e => if (e + 1) % 3 = 0 then some (e + 1) else none) ∧
    (∀ f ∈ valLineFiles (ProtoNNTrainer.train hp11 3 7 (some sess0) arr4 arr1 arr4 arr1 false
        (some ()) 1).1, f = none) ∧
    ∃ stF, (ProtoNNTrainer.train hp11 3 7 (some sess0) arr4 arr1 arr4 arr1 false
        (some ()) 1).2 = .ok stF) ∧
    valLineEpochs (ProtoNNTrainer.train hp11 3 7 (some sess0) arr4 arr1 arr4 arr1 false
        (some ()) 1).1 = [3, 6] :=
  ⟨C2_valSummarySchedule hp11 3 7 sess0 arr4 arr1 arr4 arr1 false (some ()) 1
      (by decide) (by decide) (by decide) (by decide),
   by decide⟩

/-- C8: after the checks and the partitioning succeed, train performs the
variable initialization if and only if noInit is not set: with noInit the
trace contains no initialization event and the epoch loop starts from the
session state left by the previous call (`s.state`); without it the trace
starts with exactly one initialization event, emitted before the first
epoch, and the loop starts from the reinitialized state
(`s.runInit s.state`); the epoch loop itself never reinitializes. -/
theorem C8_skipInit {σ α F : Type} (hp : HyperParams) (batchSize totalEpochs : ℤ)
    (s : Sess σ α) (xt xv yt yv : NPArr α) (noInit : Bool) (rf : Option F) (ps : ℤ)
    (xtb ytb xvb yvb : List (List α))
    (hc : trainChecks hp batchSize totalEpochs xt xv yt yv (some s) = .ok ())
    (hsp : trainSplit batchSize.toNat xt yt xv yv = .ok (xtb, ytb, xvb, yvb)) :
    ProtoNNTrainer.train hp batchSize totalEpochs (some s) xt xv yt yv noInit rf ps =
      ((if noInit then [] else [TrainEvent.initGlobals]) ++
        (runEpochs s ps rf (xtb.zip ytb) (xvb.zip yvb) yvb.length 0 totalEpochs.toNat
          (if noInit then s.state else s.runInit s.state)).1,
       (runEpochs s ps rf (xtb.zip ytb) (xvb.zip yvb) yvb.length 0 totalEpochs.toNat
          (if noInit then s.state else s.runInit s.state)).2) ∧
    initCount (runEpochs s ps rf (xtb.zip ytb) (xvb.zip yvb) yvb.length 0 totalEpochs.toNat
      (if noInit then s.state else s.runInit s.state)).1 = 0 ∧
    initCount (ProtoNNTrainer.train hp batchSize totalEpochs (some s) xt xv yt yv
      noInit rf ps).1 = (if noInit then 0 else 1) := by
  have htr := train_unfold_ok hp batchSize totalEpochs s xt xv yt yv noInit rf ps
    xtb ytb xvb yvb hc hsp
  refine ⟨htr,
    runEpochs_initCount s ps rf (xtb.zip ytb) (xvb.zip yvb) yvb.length
      totalEpochs.toNat 0 _, ?_⟩
  have hfst : (ProtoNNTrainer.train hp batchSize totalEpochs (some s) xt xv yt yv
      noInit rf ps).1 =
      (if noInit then ([] : List (TrainEvent α F)) else [TrainEvent.initGlobals]) ++
      (runEpochs s ps rf (xtb.zip ytb) (xvb.zip yvb) yvb.length 0 totalEpochs.toNat
        (if noInit then s.state else s.runInit s.state)).1 := by
    rw [htr]
  rw [hfst, initCount_append,
    runEpochs_initCount s ps rf (xtb.zip ytb) (xvb.zip yvb) yvb.length totalEpochs.toNat 0]
  cases noInit <;> simp [initCount, List.countP_cons, List.countP_nil]

/-- Witness for C8 with noInit not set: the trace starts with a single
initialization event, and the loop starts from the reinitialized state. -/
theorem C8_witness :
    ProtoNNTrainer.train hp11 3 1 (some sess0) arr10 arr1 arr10 arr1 false
      (none : Option Unit) 10 =
      ((if false then [] else [TrainEvent.initGlobals]) ++
        (runEpochs sess0 10 (none : Option Unit)
          (([[0,1,2],[3,4,5],[6,7],[8,9]] : List (List ℕ)).zip
            ([[0,1,2],[3,4,5],[6,7],[8,9]] : List (List ℕ)))
          (([[0]] : List (List ℕ)).zip ([[0]] : List (List ℕ)))
          ([[0]] : List (List ℕ)).length 0 (1 : ℤ).toNat
          (if false then sess0.state else sess0.runInit sess0.state)).1,
       (runEpochs sess0 10 (none : Option Unit)
          (([[0,1,2],[3,4,5],[6,7],[8,9]] : List (List ℕ)).zip
            ([[0,1,2],[3,4,5],[6,7],[8,9]] : List (List ℕ)))
          (([[0]] : List (List ℕ)).zip ([[0]] : List (List ℕ)))
          ([[0]] : List (List ℕ)).length 0 (1 : ℤ).toNat
          (if false then sess0.state else sess0.runInit sess0.state)).2) ∧
    initCount (runEpochs sess0 10 (none : Option Unit)
        (([[0,1,2],[3,4,5],[6,7],[8,9]] : List (List ℕ)).zip
          ([[0,1,2],[3,4,5],[6,7],[8,9]] : List (List ℕ)))
        (([[0]] : List (List ℕ)).zip ([[0]] : List (List ℕ)))
        ([[0]] : List (List ℕ)).length 0 (1 : ℤ).toNat
        (if false then sess0.state else sess0.runInit sess0.state)).1 = 0 ∧
    initCount (ProtoNNTrainer.train hp11 3 1 (some sess0) arr10 arr1 arr10 arr1 false
      (none : Option Unit) 10).1 = (if false then 0 else 1) :=
  C8_skipInit hp11 3 1 sess0 arr10 arr1 arr10 arr1 false none 10
    [[0,1,2],[3,4,5],[6,7],[8,9]] [[0,1,2],[3,4,5],[6,7],[8,9]] [[0]] [[0]]
    (by decide) (by decide)

/-- C10: a call to train with printStep = 0 and otherwise valid arguments
over non-empty training and validation sets passes every precondition
check, executes exactly one optimizer step — on the first training batch
of epoch 0 — and then fails with the ZeroDivisionError raised by the
first progress-print modulus check, so the failure is not atomic: one
parameter update has already happened when the error propagates. -/
theorem C10_printStepZero {σ α F : Type} (hp : HyperParams) (batchSize totalEpochs : ℤ)
    (s : Sess σ α) (xt xv yt yv : NPArr α) (noInit : Bool) (rf : Option F)
    (xtb ytb xvb yvb : List (List α))
    (hc : trainChecks hp batchSize totalEpochs xt xv yt yv (some s) = .ok ())
    (hsp : trainSplit batchSize.toNat xt yt xv yv = .ok (xtb, ytb, xvb, yvb))
    (hxt : xt.rows ≠ []) (hxv : xv.rows ≠ []) :
    ProtoNNTrainer.train hp batchSize totalEpochs (some s) xt xv yt yv noInit rf 0 =
      ((if noInit then [] else [TrainEvent.initGlobals]) ++
        [TrainEvent.step 0 0 (xtb.headD []) (ytb.headD [])],
       .error (.zeroDivisionError "integer division or modulo by zero")) ∧
    stepIndices (ProtoNNTrainer.train hp batchSize totalEpochs (some s) xt xv yt yv
      noInit rf 0).1 = [(0, 0)] := by
  have hiff := (trainChecks_ok_iff hp batchSize totalEpochs xt xv yt yv (some s)).mp hc
  have hb : 1 ≤ batchSize := hiff.1
  have hte : 1 ≤ totalEpochs := hiff.2.1
  have hbn : 1 ≤ batchSize.toNat := by omega
  have hkT : 0 < ceilDiv xt.rows.length batchSize.toNat :=
    ceilDiv_pos _ _ hbn (List.length_pos.mpr hxt)
  have hspok := trainSplit_ok batchSize.toNat xt yt xv yv hbn hxt hxv
  rw [hsp] at hspok
  simp only [Except.ok.injEq, Prod.mk.injEq] at hspok
  obtain ⟨e1, e2, e3, e4⟩ := hspok
  have hlx : xtb.length = ceilDiv xt.rows.length batchSize.toNat := by
    rw [e1, takeChunks_length, sectionSizes_length _ _ hkT]
  have hly : ytb.length = ceilDiv xt.rows.length batchSize.toNat := by
    rw [e2, takeChunks_length, sectionSizes_length _ _ hkT]
  obtain ⟨x0, xrest, hxe⟩ : ∃ h t, xtb = h :: t := by
    cases xtb with
    | nil =>
      exfalso
      simp at hlx
      omega
    | cons a l => exact ⟨a, l, rfl⟩
  obtain ⟨y0, yrest, hye⟩ : ∃ h t, ytb = h :: t := by
    cases ytb with
    | nil =>
      exfalso
      simp at hly
      omega
    | cons a l => exact ⟨a, l, rfl⟩
  obtain ⟨m, hm⟩ : ∃ m, totalEpochs.toNat = m + 1 := ⟨totalEpochs.toNat - 1, by omega⟩
  have htr := train_unfold_ok hp batchSize totalEpochs s xt xv yt yv noInit rf 0
    xtb ytb xvb yvb hc hsp
  subst hxe hye
  have hloop : runEpochs s 0 rf ((x0 :: xrest).zip (y0 :: yrest)) (xvb.zip yvb)
      yvb.length 0 totalEpochs.toNat
      (if noInit then s.state else s.runInit s.state) =
      ([TrainEvent.step 0 0 x0 y0],
       .error (.zeroDivisionError "integer division or modulo by zero")) := by
    rw [hm]
    simp [runEpochs, runEpochBatches, List.zip_cons_cons]
  constructor
  · rw [htr, hloop]
    simp
  · have hfst : (ProtoNNTrainer.train hp batchSize totalEpochs (some s) xt xv yt yv
        noInit rf 0).1 =
        (if noInit then ([] : List (TrainEvent α F)) else [TrainEvent.initGlobals]) ++
        [TrainEvent.step 0 0 x0 y0] := by
      rw [htr, hloop]
    rw [hfst]
    cases noInit <;> rfl

/-- Witness for C10: N = 10, batchSize = 3, printStep = 0 — one optimizer
step on the first batch [0,1,2], then the ZeroDivisionError. -/
theorem C10_witness :
    ProtoNNTrainer.train hp11 3 1 (some sess0) arr10 arr1 arr10 arr1 false
      (none : Option Unit) 0 =
      ((if false then [] else [TrainEvent.initGlobals]) ++
        [TrainEvent.step 0 0 (([[0,1,2],[3,4,5],[6,7],[8,9]] : List (List ℕ)).headD [])
          (([[0,1,2],[3,4,5],[6,7],[8,9]] : List (List ℕ)).headD [])],
       .error (.zeroDivisionError "integer division or modulo by zero")) ∧
    stepIndices (ProtoNNTrainer.train hp11 3 1 (some sess0) arr10 arr1 arr10 arr1 false
      (none : Option Unit) 0).1 = [(0, 0)] :=
  C10_printStepZero hp11 3 1 sess0 arr10 arr1 arr10 arr1 false none
    [[0,1,2],[3,4,5],[6,7],[8,9]] [[0,1,2],[3,4,5],[6,7],[8,9]] [[0]] [[0]]
    (by decide) (by decide) (by decide) (by decide)
